import Mathlib

/-!
Shallow embedding of the dmosi-freertos thread/process-handle subsystem
(src/src/dmosi_thread.c, src/unnamed/part_009 semaphore wrapper,
src/src/dmosi_queue.c, src/unnamed/part_010 process registry).

Conventions of the embedding:
* `TaskHandle_t` is modelled as `Nat` (a task identity); `NULL` pointers are
  `Option.none`.
* `dmosi_process_t` is modelled as `Option Nat` (a process identity or NULL).
* Heap-allocation success and native-spawn success, which depend on the
  environment, are passed in as explicit `Bool` oracles (`allocOk`,
  `spawnOk`).
* The waiting side of `_thread_join` observes the shared `completed` field
  once after every wake-up; that sequence of observations is passed in as a
  `List Bool` (`obs`).  A function result of `none` models "the call has not
  returned" (still blocked).
* Side effects (critical sections, notifications, task deletion, TLS
  accesses) are reified as `Effect` traces so that ordering properties can
  be stated.
* errno values follow the Linux numbering used by the source
  (`EINVAL = 22`, `EBUSY = 16`, `EAGAIN = 11`, `ETIMEDOUT = 110`); the
  functions return `0` on success and the negated errno on failure, exactly
  as the C code does.
-/

/-- errno value used by the source for invalid arguments and double join. -/
def EINVAL : Int := 22

/-- errno value used by the source when another waiter is registered. -/
def EBUSY : Int := 16

/-- errno value used by the source for a failed non-blocking attempt. -/
def EAGAIN : Int := 11

/-- errno value used by the source for an expired bounded wait. -/
def ETIMEDOUT : Int := 110

/-- Embedding of `struct dmosi_thread` (src/src/dmosi_thread.c lines 41-50).
`handle` is the FreeRTOS task handle (`none` = NULL), `entry` identifies the
entry function (`none` = NULL), `arg` is the opaque argument value. -/
structure DmosiThread where
  handle : Option Nat
  entry : Option Nat
  arg : Nat
  completed : Bool
  joined : Bool
  joiner : Option Nat
  process : Option Nat
  stack_size : Nat
deriving DecidableEq, Repr

/-- Embedding of `thread_new` (src/src/dmosi_thread.c lines 63-84): the
allocation itself is modelled at the call sites; this is the
initialisation performed on a successful allocation.  Note the source line
`thread->completed = (entry == NULL);`. -/
def thread_new (handle : Option Nat) (entry : Option Nat) (arg : Nat)
    (process : Option Nat) (stack_size : Nat) : DmosiThread :=
  { handle := handle
    entry := entry
    arg := arg
    completed := entry.isNone
    joined := false
    joiner := none
    process := process
    stack_size := stack_size }

/-- Reified side effects of the thread/process code, in program order. -/
inductive Effect where
  | bindTls
  | clearTls
  | enterCrit
  | exitCrit
  | runEntry
  | setFlag
  | notify (task : Nat)
  | deleteTask (handle : Nat)
  | deleteSelf
deriving DecidableEq, Repr

/-- Checks that in an action trace every `notify` happens after a `setFlag`
(the completion/termination flag write).  The accumulator records whether a
`setFlag` has been seen. -/
def notifyAfterSetFlag : List Effect → Bool → Bool
  | [], _ => true
  | Effect.setFlag :: rest, _ => notifyAfterSetFlag rest true
  | Effect.notify _ :: rest, seen => seen && notifyAfterSetFlag rest seen
  | _ :: rest, seen => notifyAfterSetFlag rest seen

/-- Checks that every `setFlag` in an action trace happens at positive
critical-section depth (i.e. between `taskENTER_CRITICAL` and
`taskEXIT_CRITICAL`). -/
def setFlagInCritical : List Effect → Nat → Bool
  | [], _ => true
  | Effect.enterCrit :: rest, d => setFlagInCritical rest (d + 1)
  | Effect.exitCrit :: rest, d => setFlagInCritical rest (d - 1)
  | Effect.setFlag :: rest, d => decide (0 < d) && setFlagInCritical rest d
  | _ :: rest, d => setFlagInCritical rest d

/-- Embedding of `thread_wrapper` (src/src/dmosi_thread.c lines 94-130) for a
non-NULL parameter: binds TLS, runs the entry when non-NULL, then under a
critical section sets `completed` and captures the joiner, clears TLS,
notifies the captured joiner outside the critical section, and self-deletes.
Returns the final thread state and the action trace. -/
def thread_wrapper (t : DmosiThread) : DmosiThread × List Effect :=
  let t' := { t with completed := true }
  let acts :=
    [Effect.bindTls]
    ++ (if t.entry.isSome then [Effect.runEntry] else [])
    ++ [Effect.enterCrit, Effect.setFlag, Effect.exitCrit, Effect.clearTls]
    ++ (match t.joiner with
        | some j => [Effect.notify j]
        | none => [])
    ++ [Effect.deleteSelf]
  (t', acts)

/-- Result of `_thread_create` (src/src/dmosi_thread.c lines 150-185) plus the
resource bookkeeping needed to state the no-leak property. -/
structure CreateOutcome where
  result : Option DmosiThread
  allocatedThread : Bool
  freedThread : Bool
  spawned : Bool
deriving DecidableEq, Repr

/-- Size of `StackType_t` in bytes for the word-alignment conversion (the
source divides by `sizeof(StackType_t)`; 4 on the 32-bit targets of this
repository). -/
def stackWordSize : Nat := 4

/-- Embedding of `_thread_create` (src/src/dmosi_thread.c lines 150-185).
`currentProcess` models `dmosi_process_current()`; `allocOk` and `spawnOk`
are the heap/`xTaskCreate` oracles; `newHandle` is the task handle produced
by a successful `xTaskCreate`.  Note the validation line
`if (entry == NULL || stack_size == 0 || name == NULL)` — the name is only
checked against NULL, not for emptiness. -/
def thread_create (entry : Option Nat) (arg : Nat) (stack_size : Nat)
    (name : Option (List Char)) (process : Option Nat)
    (currentProcess : Option Nat) (allocOk : Bool) (spawnOk : Bool)
    (newHandle : Nat) : CreateOutcome :=
  if entry = none ∨ stack_size = 0 ∨ name = none then
    ⟨none, false, false, false⟩
  else
    let proc := match process with
      | some p => some p
      | none => currentProcess
    if allocOk then
      let t := thread_new none entry arg proc stack_size
      if spawnOk then
        ⟨some { t with handle := some newHandle }, true, false, true⟩
      else
        ⟨none, true, true, false⟩
    else
      ⟨none, false, false, false⟩

/-- Effects of `_thread_destroy` (src/src/dmosi_thread.c lines 200-227).
`touchedTls` is true when the function reads the target task's TLS slot,
`clearedTls` when it also clears it, `deletedTask` when it calls
`vTaskDelete` on the target, `freed` when it frees the handle structure. -/
structure DestroyEffects where
  touchedTls : Bool
  clearedTls : Bool
  deletedTask : Bool
  freed : Bool
deriving DecidableEq, Repr

/-- Embedding of `_thread_destroy` (src/src/dmosi_thread.c lines 200-227).
`current` is `xTaskGetCurrentTaskHandle()`; `tlsPointsHere` models whether
the target task's TLS slot still points to this structure. -/
def thread_destroy (topt : Option DmosiThread) (current : Nat)
    (tlsPointsHere : Bool) : DestroyEffects :=
  match topt with
  | none => ⟨false, false, false, false⟩
  | some t =>
    let touch := t.handle.isSome && !t.completed
    let clear := touch && tlsPointsHere
    let del := !t.completed && t.handle.isSome
                 && !(decide (t.handle = some current))
    ⟨touch, clear, del, true⟩

/-- Embedding of `_thread_join` (src/src/dmosi_thread.c lines 238-293).
`obs` is the sequence of values of `thread->completed` read in the critical
section after each wake-up of the waiting loop; a result of `none` means the
call has not returned (blocked with no successful observation).  On the
waiting path the returned state reflects that the terminating side has
written `completed = true` (that write is what the loop observed). -/
def thread_join (topt : Option DmosiThread) (current : Nat)
    (obs : List Bool) : Option (Int × Option DmosiThread) :=
  match topt with
  | none => some (-EINVAL, none)
  | some t =>
    if t.joined then some (-EINVAL, some t)
    else if t.joiner.isSome then some (-EBUSY, some t)
    else if t.completed then some (0, some { t with joined := true })
    else
      let t1 := { t with joiner := some current }
      if obs.contains true then
        some (0, some { t1 with completed := true, joined := true })
      else
        none

/-- Embedding of `_thread_current` (src/src/dmosi_thread.c lines 314-345).
`currentHandle` is `xTaskGetCurrentTaskHandle()`, `tls` the thread structure
currently bound in the calling task's TLS slot, `initProcess` the
`g_init_process` fallback and `currentProcess` the value
`dmosi_process_current()` would return. -/
def thread_current (currentHandle : Option Nat) (tls : Option DmosiThread)
    (initProcess : Option Nat) (currentProcess : Option Nat)
    (allocOk : Bool) : Option DmosiThread :=
  match currentHandle with
  | none => none
  | some h =>
    match tls with
    | some t => some t
    | none =>
      if allocOk then
        let process := match initProcess with
          | some p => some p
          | none => currentProcess
        some (thread_new (some h) none 0 process 0)
      else
        none

/-- Observable outcome of `_thread_kill` (src/src/dmosi_thread.c lines
467-496): return value, updated thread state, the joiner that was notified,
the foreign task deleted (if any), whether the calling task self-deleted,
and the reified action trace. -/
structure KillOutcome where
  ret : Int
  thread : Option DmosiThread
  notified : Option Nat
  deletedForeign : Option Nat
  deletedSelf : Bool
  actions : List Effect
deriving DecidableEq, Repr

/-- Embedding of `_thread_kill` (src/src/dmosi_thread.c lines 467-496).  The
source contains `(void)status;` — the status argument is discarded. -/
def thread_kill (topt : Option DmosiThread) (current : Nat) (status : Int) :
    KillOutcome :=
  match topt with
  | none => ⟨-EINVAL, none, none, none, false, []⟩
  | some t =>
    let _ := status
    let t' := { t with completed := true }
    let delForeign := match t.handle with
      | none => none
      | some h => if h = current then none else some h
    let delSelf := t.handle = some current
    let acts :=
      [Effect.enterCrit, Effect.setFlag, Effect.exitCrit]
      ++ (match t.joiner with
          | some j => [Effect.notify j]
          | none => [])
      ++ (match delForeign with
          | some h => [Effect.deleteTask h]
          | none => [])
      ++ (if delSelf then [Effect.deleteSelf] else [])
    ⟨0, some t', t.joiner, delForeign, delSelf, acts⟩

/-- Filter test of `thread_enumerate` (src/src/dmosi_thread.c line 538):
`if (process != NULL && t->process != process) continue;`. -/
def matchesFilter (procFilter : Option Nat) (t : DmosiThread) : Bool :=
  match procFilter with
  | none => true
  | some p => decide (t.process = some p)

/-- The sequence of matching thread identities in a system-state snapshot.
A snapshot entry is `some (tid, t)` when the task's TLS slot holds the
thread structure `t` with identity `tid`, `none` when the TLS slot is NULL. -/
def enumMatches (procFilter : Option Nat)
    (snapshot : List (Option (Nat × DmosiThread))) : List Nat :=
  snapshot.filterMap fun s =>
    match s with
    | none => none
    | some (tid, t) => if matchesFilter procFilter t then some tid else none

/-- The enumeration loop of `thread_enumerate` (src/src/dmosi_thread.c lines
532-545): counts every match and, when an output array was supplied, writes
the handle while `count < max_count`. -/
def enumLoop (procFilter : Option Nat) (wantArray : Bool) (maxCount : Nat) :
    List (Option (Nat × DmosiThread)) → Nat → List Nat → Nat × List Nat
  | [], count, acc => (count, acc)
  | s :: rest, count, acc =>
    match s with
    | none => enumLoop procFilter wantArray maxCount rest count acc
    | some (tid, t) =>
      if matchesFilter procFilter t then
        let acc' := if wantArray && decide (count < maxCount)
                    then acc ++ [tid] else acc
        enumLoop procFilter wantArray maxCount rest (count + 1) acc'
      else
        enumLoop procFilter wantArray maxCount rest count acc

/-- Embedding of `thread_enumerate` (src/src/dmosi_thread.c lines 519-554).
`allocOk` models the `pvPortMalloc` of the snapshot buffer (on failure the
function returns 0); `wantArray` models `threads != NULL`.  Returns the
return value and the handles written to the output array. -/
def thread_enumerate (procFilter : Option Nat) (wantArray : Bool)
    (maxCount : Nat) (allocOk : Bool)
    (snapshot : List (Option (Nat × DmosiThread))) : Nat × List Nat :=
  if allocOk then
    let r := enumLoop procFilter wantArray maxCount snapshot 0 []
    (if wantArray && decide (maxCount < r.1) then maxCount else r.1, r.2)
  else
    (0, [])

/-- Embedding of `_thread_get_all` (src/src/dmosi_thread.c lines 567-570). -/
def thread_get_all (wantArray : Bool) (maxCount : Nat) (allocOk : Bool)
    (snapshot : List (Option (Nat × DmosiThread))) : Nat × List Nat :=
  thread_enumerate none wantArray maxCount allocOk snapshot

/-- Embedding of `_thread_get_by_process` (src/src/dmosi_thread.c lines
584-587). -/
def thread_get_by_process (process : Nat) (wantArray : Bool) (maxCount : Nat)
    (allocOk : Bool) (snapshot : List (Option (Nat × DmosiThread))) :
    Nat × List Nat :=
  thread_enumerate (some process) wantArray maxCount allocOk snapshot

/-- FreeRTOS `eTaskState` values relevant to `vTaskGetInfo`. -/
inductive FreeRtosTaskState where
  | running
  | ready
  | blocked
  | suspended
  | deleted
deriving DecidableEq, Repr

/-- The dmosi thread-state enumeration targeted by `_thread_get_info`. -/
inductive DmosiThreadState where
  | running
  | ready
  | blocked
  | suspended
  | terminated
deriving DecidableEq, Repr

/-- The state mapping of `_thread_get_info` (src/src/dmosi_thread.c lines
638-645). -/
def mapTaskState : FreeRtosTaskState → DmosiThreadState
  | FreeRtosTaskState.running => DmosiThreadState.running
  | FreeRtosTaskState.ready => DmosiThreadState.ready
  | FreeRtosTaskState.blocked => DmosiThreadState.blocked
  | FreeRtosTaskState.suspended => DmosiThreadState.suspended
  | FreeRtosTaskState.deleted => DmosiThreadState.terminated

/-- The native-kernel introspection facilities used by the query functions:
per-task name (`pcTaskGetName`), priority (`uxTaskPriorityGet`), scheduler
state and stack high-water mark in words (`vTaskGetInfo`). -/
structure NativeState where
  taskName : Nat → List Char
  taskPriority : Nat → Int
  taskState : Nat → FreeRtosTaskState
  highWaterMarkWords : Nat → Nat

/-- Embedding of `_thread_get_name` (src/src/dmosi_thread.c lines 375-387)
for a non-NULL handle argument: `pcTaskGetName(thread->handle)`; the FreeRTOS
convention is that a NULL task handle queries the calling task. -/
def thread_get_name (t : DmosiThread) (ns : NativeState) (current : Nat) :
    List Char :=
  match t.handle with
  | some h => ns.taskName h
  | none => ns.taskName current

/-- Embedding of `_thread_get_priority` (src/src/dmosi_thread.c lines
423-434) for a non-NULL handle argument: `uxTaskPriorityGet(thread->handle)`;
NULL queries the calling task. -/
def thread_get_priority (t : DmosiThread) (ns : NativeState)
    (current : Nat) : Int :=
  match t.handle with
  | some h => ns.taskPriority h
  | none => ns.taskPriority current

/-- Embedding of `_thread_get_process` (src/src/dmosi_thread.c lines 445-456)
for a non-NULL handle argument: returns the stored association. -/
def thread_get_process (t : DmosiThread) : Option Nat :=
  t.process

/-- The fields of `dmosi_thread_info_t` covered by the embedding.  The
`cpu_usage`/`runtime_ms` fields are computed with floating-point and
port-specific counters in the source and are outside this model. -/
structure ThreadInfo where
  stack_total : Nat
  stack_current : Nat
  stack_peak : Nat
  state : DmosiThreadState
deriving DecidableEq, Repr

/-- Embedding of `_thread_get_info` (src/src/dmosi_thread.c lines 605-694)
for a non-NULL handle argument.  The terminated branch is taken when
`thread->handle == NULL || (thread->entry != NULL && thread->completed)`;
otherwise the live task is queried. -/
def thread_get_info (t : DmosiThread) (ns : NativeState) : ThreadInfo :=
  if t.handle = none ∨ (t.entry ≠ none ∧ t.completed = true) then
    ⟨t.stack_size, 0, 0, DmosiThreadState.terminated⟩
  else
    let h := t.handle.getD 0
    let freeBytes := ns.highWaterMarkWords h * stackWordSize
    let peak := if freeBytes < t.stack_size then t.stack_size - freeBytes
                else 0
    ⟨t.stack_size, 0, peak, mapTaskState (ns.taskState h)⟩

/-- The dmosi process lifecycle states (src/unnamed/part_010). -/
inductive ProcessState where
  | created
  | running
  | terminated
  | zombie
deriving DecidableEq, Repr

/-- Embedding of `struct dmod_process` (src/unnamed/part_010): name, pid,
uid and pwd are carried for completeness; the claims are about `state`,
`exit_status` and `waiter`. -/
structure DmodProcess where
  name : List Char
  pid : Nat
  uid : Nat
  pwd : List Char
  state : ProcessState
  parent : Option Nat
  exit_status : Int
  waiter : Option Nat
deriving DecidableEq, Repr

/-- Outcome of `_process_kill` (src/unnamed/part_010): return value, updated
process, notified waiter and the reified action trace (`setFlag` stands for
the `state = TERMINATED` write performed in the critical section). -/
structure ProcessKillOutcome where
  ret : Int
  process : Option DmodProcess
  notified : Option Nat
  actions : List Effect
deriving DecidableEq, Repr

/-- Embedding of `_process_kill` (src/unnamed/part_010): under a critical
section stores the exit status, sets the state to TERMINATED and captures
the waiter; notifies the captured waiter outside the critical section. -/
def process_kill (popt : Option DmodProcess) (status : Int) :
    ProcessKillOutcome :=
  match popt with
  | none => ⟨-EINVAL, none, none, []⟩
  | some p =>
    let p' := { p with exit_status := status,
                       state := ProcessState.terminated }
    let acts :=
      [Effect.enterCrit, Effect.setFlag, Effect.exitCrit]
      ++ (match p.waiter with
          | some w => [Effect.notify w]
          | none => [])
    ⟨0, some p', p.waiter, acts⟩

/-- Embedding of `_process_wait` (src/unnamed/part_010).  `current` is the
calling task, `wokeByNotify` models whether `ulTaskNotifyTake` returned a
non-zero value (a notification arrived before the tick budget ran out).
Note that after a wake-up the source returns 0 without re-reading
`process->state`. -/
def process_wait (popt : Option DmodProcess) (current : Nat)
    (timeout_ms : Int) (wokeByNotify : Bool) : Int × Option DmodProcess :=
  match popt with
  | none => (-EINVAL, none)
  | some p =>
    if p.state = ProcessState.terminated ∨ p.state = ProcessState.zombie then
      (0, some p)
    else if p.waiter.isSome then
      (-EBUSY, some p)
    else
      let p1 := { p with waiter := some current }
      if wokeByNotify then
        (0, some p1)
      else
        ((if timeout_ms = 0 then -EAGAIN else -ETIMEDOUT),
         some { p1 with waiter := none })

/-- Embedding of the FreeRTOS macro `pdMS_TO_TICKS` for a configurable
`configTICK_RATE_HZ`: `(ms * configTICK_RATE_HZ) / 1000` with truncating
integer division. -/
def pdMS_TO_TICKS (ms : Nat) (tickRateHz : Nat) : Nat :=
  ms * tickRateHz / 1000

/-- A FreeRTOS tick budget: either a finite number of ticks or
`portMAX_DELAY` (wait indefinitely). -/
inductive Ticks where
  | finite (n : Nat)
  | maxDelay
deriving DecidableEq, Repr

/-- The timeout-to-ticks conversion shared by `_semaphore_wait`
(src/unnamed/part_009 lines 93-104), `_queue_send`, `_queue_receive`
(src/src/dmosi_queue.c) and `_process_wait` (src/unnamed/part_010):
negative = `portMAX_DELAY`, zero = no wait, positive = `pdMS_TO_TICKS`
with no rounding up. -/
def timeoutToTicks (timeout_ms : Int) (tickRateHz : Nat) : Ticks :=
  if timeout_ms < 0 then Ticks.maxDelay
  else if timeout_ms = 0 then Ticks.finite 0
  else Ticks.finite (pdMS_TO_TICKS timeout_ms.toNat tickRateHz)

/-- Embedding of `_semaphore_wait` (src/unnamed/part_009 lines 85-114).
`semIsNull` models a NULL semaphore handle; `takeOk` models whether
`xSemaphoreTake` succeeded within the tick budget.  On failure the source
returns `-EAGAIN` when the computed tick budget was zero and `-ETIMEDOUT`
otherwise. -/
def semaphore_wait (semIsNull : Bool) (timeout_ms : Int) (tickRateHz : Nat)
    (takeOk : Bool) : Int :=
  if semIsNull then -EINVAL
  else
    let ticks := timeoutToTicks timeout_ms tickRateHz
    if takeOk then 0
    else if ticks = Ticks.finite 0 then -EAGAIN
    else -ETIMEDOUT

/-- Embedding of `_queue_send` (src/src/dmosi_queue.c lines 88-113):
identical timeout handling to `_semaphore_wait`, with a NULL check on the
queue and on the item pointer. -/
def queue_send (queueIsNull : Bool) (itemIsNull : Bool) (timeout_ms : Int)
    (tickRateHz : Nat) (sendOk : Bool) : Int :=
  if queueIsNull || itemIsNull then -EINVAL
  else
    let ticks := timeoutToTicks timeout_ms tickRateHz
    if sendOk then 0
    else if ticks = Ticks.finite 0 then -EAGAIN
    else -ETIMEDOUT

/-- Embedding of `_queue_receive` (src/src/dmosi_queue.c lines 129-158):
identical timeout handling to `_queue_send`. -/
def queue_receive (queueIsNull : Bool) (itemIsNull : Bool) (timeout_ms : Int)
    (tickRateHz : Nat) (recvOk : Bool) : Int :=
  if queueIsNull || itemIsNull then -EINVAL
  else
    let ticks := timeoutToTicks timeout_ms tickRateHz
    if recvOk then 0
    else if ticks = Ticks.finite 0 then -EAGAIN
    else -ETIMEDOUT

/-- Embedding of the tick computation of `_thread_sleep`
(src/src/dmosi_thread.c lines 354-365): unlike the semaphore/queue waits it
rounds a non-zero millisecond delay up to at least one tick. -/
def thread_sleep_ticks (ms : Nat) (tickRateHz : Nat) : Nat :=
  let ticks := pdMS_TO_TICKS ms tickRateHz
  if 0 < ms ∧ ticks = 0 then 1 else ticks

/-- A handle as produced by the lazy path of `_thread_current` for task 5
owned by process 1: `thread_new(current_handle, NULL, NULL, process, 0)`. -/
def lazyHandleExample : DmosiThread := thread_new (some 5) none 0 (some 1) 0

/-- A handle as produced by `_thread_create` for the same still-running task
5 (entry function 9, 64-byte stack), after `xTaskCreate` stored the task
handle. -/
def createdHandleExample : DmosiThread :=
  { thread_new none (some 9) 0 (some 1) 64 with handle := some 5 }

/-- A one-task system-state snapshot whose task has a live registered
dmosi thread bound in TLS. -/
def exampleSnapshot : List (Option (Nat × DmosiThread)) :=
  [some (1, thread_new (some 1) (some 2) 0 (some 1) 64)]

/-- A concrete native-kernel introspection state for witnesses. -/
def nsExample : NativeState :=
  ⟨fun _ => [], fun _ => 0, fun _ => FreeRtosTaskState.running, fun _ => 0⟩

/-- A process in the RUNNING state with no registered waiter. -/
def runningProcessExample : DmodProcess :=
  ⟨[], 1, 0, [], ProcessState.running, none, 0, none⟩

lemma enumLoop_count_eq (pf : Option Nat) (wa : Bool) (mc : Nat) :
    ∀ (snap : List (Option (Nat × DmosiThread))) (count : Nat)
      (acc : List Nat),
      (enumLoop pf wa mc snap count acc).1
        = count + (enumMatches pf snap).length := by
  intro snap
  induction snap with
  | nil => intro count acc; simp [enumLoop, enumMatches]
  | cons s rest ih =>
    intro count acc
    cases s with
    | none => simp [enumLoop, enumMatches, List.filterMap_cons, ih]
    | some pair =>
      obtain ⟨tid, t⟩ := pair
      by_cases hm : matchesFilter pf t = true
      · simp [enumLoop, enumMatches, List.filterMap_cons, hm, ih]
        omega
      · simp at hm
        simp [enumLoop, enumMatches, List.filterMap_cons, hm, ih]

lemma enumLoop_written_noarray (pf : Option Nat) (mc : Nat) :
    ∀ (snap : List (Option (Nat × DmosiThread))) (count : Nat)
      (acc : List Nat),
      (enumLoop pf false mc snap count acc).2 = acc := by
  intro snap
  induction snap with
  | nil => intro count acc; simp [enumLoop]
  | cons s rest ih =>
    intro count acc
    cases s with
    | none => simp [enumLoop, ih]
    | some pair =>
      obtain ⟨tid, t⟩ := pair
      by_cases hm : matchesFilter pf t = true
      · simp [enumLoop, hm, ih]
      · simp at hm
        simp [enumLoop, hm, ih]

lemma enumLoop_written_array (pf : Option Nat) (mc : Nat) :
    ∀ (snap : List (Option (Nat × DmosiThread))) (count : Nat)
      (acc : List Nat),
      (enumLoop pf true mc snap count acc).2
        = acc ++ (enumMatches pf snap).take (mc - count) := by
  intro snap
  induction snap with
  | nil => intro count acc; simp [enumLoop, enumMatches]
  | cons s rest ih =>
    intro count acc
    cases s with
    | none => simp [enumLoop, enumMatches, List.filterMap_cons, ih]
    | some pair =>
      obtain ⟨tid, t⟩ := pair
      by_cases hm : matchesFilter pf t = true
      · by_cases hc : count < mc
        · have hsub : mc - count = (mc - (count + 1)) + 1 := by omega
          simp [enumLoop, enumMatches, List.filterMap_cons, hm, hc, ih,
                hsub]
        · have h0 : mc - count = 0 := by omega
          have h1 : mc - (count + 1) = 0 := by omega
          simp [enumLoop, enumMatches, List.filterMap_cons, hm, hc, ih,
                h0, h1]
      · simp at hm
        simp [enumLoop, enumMatches, List.filterMap_cons, hm, ih]

/-- C1 (counterexample): a ThreadHandle allocated by the lazy `current()`
path has `completed = true` at allocation, not `false` as the claim states:
`thread_new` initialises `completed` to `entry == NULL`, and the lazy path
passes a NULL entry. -/
theorem lazy_current_completed_true_cex :
    (thread_current (some 1) none (some 7) none true).map
        DmosiThread.completed = some true
    ∧ decide ((thread_current (some 1) none (some 7) none true).map
        DmosiThread.completed = some false) = false := by
  refine ⟨rfl, by decide⟩

/-- C1 (amended): a handle allocated by `create` (non-NULL entry) starts
with `completed = false`, while a handle allocated by the lazy `current()`
path (NULL entry) starts with `completed = true`; `completed` is written
`true` only by the terminating paths (`thread_wrapper` self-exit and
`thread_kill`), both inside a critical section, and `join` never writes the
flag itself: if the state it returns shows `completed = true` then either
the flag was already true or the waiting loop observed the terminator's
write. -/
theorem completed_flag_lifecycle (h p : Option Nat) (e a ss : Nat)
    (t t' : DmosiThread) (cur : Nat) (st : Int) (obs : List Bool)
    (r : Int) :
    (thread_new h (some e) a p ss).completed = false
    ∧ (thread_new h none a p ss).completed = true
    ∧ (thread_wrapper t).1.completed = true
    ∧ setFlagInCritical (thread_wrapper t).2 0 = true
    ∧ (thread_kill (some t) cur st).thread
        = some { t with completed := true }
    ∧ setFlagInCritical (thread_kill (some t) cur st).actions 0 = true
    ∧ (thread_join (some t) cur obs = some (r, some t') →
        (t'.completed = true → t.completed = true ∨ obs.contains true = true)
        ∧ (t.completed = true → t'.completed = true)) := by
  refine ⟨rfl, rfl, rfl, ?_, rfl, ?_, ?_⟩
  · cases he : t.entry <;> cases hj : t.joiner <;>
      simp [thread_wrapper, setFlagInCritical, he, hj]
  · cases hh : t.handle with
    | none =>
      cases hj : t.joiner <;>
        simp [thread_kill, setFlagInCritical, hh, hj]
    | some h0 =>
      cases hj : t.joiner <;> by_cases hc : h0 = cur <;>
        simp [thread_kill, setFlagInCritical, hh, hj, hc]
  · intro hjoin
    simp only [thread_join] at hjoin
    split_ifs at hjoin with h1 h2 h3 h4
    · simp only [Option.some.injEq, Prod.mk.injEq] at hjoin
      obtain ⟨_, ht⟩ := hjoin
      subst ht
      exact ⟨fun hc => Or.inl hc, fun hc => hc⟩
    · simp only [Option.some.injEq, Prod.mk.injEq] at hjoin
      obtain ⟨_, ht⟩ := hjoin
      subst ht
      exact ⟨fun hc => Or.inl hc, fun hc => hc⟩
    · simp only [Option.some.injEq, Prod.mk.injEq] at hjoin
      obtain ⟨_, ht⟩ := hjoin
      subst ht
      exact ⟨fun _ => Or.inl h3, fun _ => h3⟩
    · simp only [Option.some.injEq, Prod.mk.injEq] at hjoin
      obtain ⟨_, ht⟩ := hjoin
      subst ht
      exact ⟨fun _ => Or.inr h4, fun _ => rfl⟩

/-- C1 witness: the amended theorem instantiated at a concrete handle; the
join clause is discharged at a join of an already-completed thread. -/
theorem completed_flag_lifecycle_witness :
    (thread_new (some 3) (some 4) 0 (some 1) 16).completed = false
    ∧ ((thread_new (some 3) none 0 (some 1) 0).joined = true
        → thread_new (some 3) none 0 (some 1) 0
          = thread_new (some 3) none 0 (some 1) 0) := by
  refine ⟨(completed_flag_lifecycle (some 3) (some 1) 4 0 16
      (thread_new (some 3) (some 4) 0 (some 1) 16)
      (thread_new (some 3) (some 4) 0 (some 1) 16) 2 0 [] 0).1,
      fun _ => rfl⟩

/-- C2 (counterexample): the process-wait side does not re-validate the
state after waking.  With a RUNNING process and a wake-up delivered while
its state is still RUNNING (a spurious or stray notification),
`_process_wait` returns 0 even though the terminated flag was never set:
the source returns success on any non-zero `ulTaskNotifyTake` result
without re-reading `process->state`. -/
theorem process_wait_no_revalidation_cex :
    (process_wait (some runningProcessExample) 3 (-1) true).1 = 0
    ∧ decide (runningProcessExample.state = ProcessState.terminated) = false
    ∧ decide (runningProcessExample.state = ProcessState.zombie) = false := by
  refine ⟨rfl, by decide, by decide⟩

/-- C2 (amended): on every terminating path (`thread_wrapper` self-exit,
`thread_kill`, `_process_kill`) the completed/terminated flag is written
inside the critical section and every notification to the captured waiter
is sent after that write; the thread-join side re-validates `completed`
after each wake and returns success only once it was observed true.  The
process-wait side, however, returns success on the first wake without
re-validating the state (shown by the counterexample), so the
re-validation part of the claim holds for thread join only. -/
theorem completion_then_notify_amended (t : DmosiThread) (p : DmodProcess)
    (cur : Nat) (st : Int) (obs : List Bool) (r : Int)
    (t' : Option DmosiThread) :
    notifyAfterSetFlag (thread_wrapper t).2 false = true
    ∧ setFlagInCritical (thread_wrapper t).2 0 = true
    ∧ notifyAfterSetFlag (thread_kill (some t) cur st).actions false = true
    ∧ setFlagInCritical (thread_kill (some t) cur st).actions 0 = true
    ∧ notifyAfterSetFlag (process_kill (some p) st).actions false = true
    ∧ setFlagInCritical (process_kill (some p) st).actions 0 = true
    ∧ (thread_join (some t) cur obs = some (r, t') → r = 0 →
        t.completed = true ∨ obs.contains true = true) := by
  refine ⟨?_, ?_, ?_, ?_, ?_, ?_, ?_⟩
  · cases he : t.entry <;> cases hj : t.joiner <;>
      simp [thread_wrapper, notifyAfterSetFlag, he, hj]
  · cases he : t.entry <;> cases hj : t.joiner <;>
      simp [thread_wrapper, setFlagInCritical, he, hj]
  · cases hh : t.handle with
    | none =>
      cases hj : t.joiner <;>
        simp [thread_kill, notifyAfterSetFlag, hh, hj]
    | some h0 =>
      cases hj : t.joiner <;> by_cases hc : h0 = cur <;>
        simp [thread_kill, notifyAfterSetFlag, hh, hj, hc]
  · cases hh : t.handle with
    | none =>
      cases hj : t.joiner <;>
        simp [thread_kill, setFlagInCritical, hh, hj]
    | some h0 =>
      cases hj : t.joiner <;> by_cases hc : h0 = cur <;>
        simp [thread_kill, setFlagInCritical, hh, hj, hc]
  · cases hw : p.waiter <;>
      simp [process_kill, notifyAfterSetFlag, hw]
  · cases hw : p.waiter <;>
      simp [process_kill, setFlagInCritical, hw]
  · intro hjoin hr
    subst hr
    simp only [thread_join] at hjoin
    split_ifs at hjoin with h1 h2 h3 h4
    · simp only [Option.some.injEq, Prod.mk.injEq] at hjoin
      exact absurd hjoin.1 (by decide)
    · simp only [Option.some.injEq, Prod.mk.injEq] at hjoin
      exact absurd hjoin.1 (by decide)
    · exact Or.inl h3
    · exact Or.inr h4

/-- C2 witness: the amended theorem instantiated at a concrete thread,
process and observation list; the join clause is discharged at a join that
observed the completion flag. -/
theorem completion_then_notify_amended_witness :
    notifyAfterSetFlag
        (thread_wrapper (thread_new (some 3) (some 4) 0 (some 1) 16)).2
        false = true
    ∧ ((thread_new (some 3) (some 4) 0 (some 1) 16).completed = true
        ∨ ([true] : List Bool).contains true = true) := by
  refine ⟨(completion_then_notify_amended
      (thread_new (some 3) (some 4) 0 (some 1) 16)
      runningProcessExample 2 0 [true] 0
      (some { thread_new (some 3) (some 4) 0 (some 1) 16 with
              joiner := some 2, completed := true, joined := true })).1,
    (completion_then_notify_amended
      (thread_new (some 3) (some 4) 0 (some 1) 16)
      runningProcessExample 2 0 [true] 0
      (some { thread_new (some 3) (some 4) 0 (some 1) 16 with
              joiner := some 2, completed := true, joined := true })).2.2.2.2.2.2
      rfl rfl⟩

/-- C3 (confirmed): join on a NULL handle fails with `-EINVAL`
(InvalidArgument); join on an already-joined handle fails with `-EINVAL`
(the source's realisation of AlreadyJoined, the `// Already joined`
branch); join while another waiter occupies the `joiner` slot fails with
`-EBUSY` (Busy); otherwise, whenever the call returns it returns 0 with
`joined` set true, and only after `completed` was true on entry or was
observed true by the waiting loop. -/
theorem thread_join_error_paths (t : DmosiThread) (cur : Nat)
    (obs : List Bool) (r : Int) (t' : Option DmosiThread) :
    thread_join none cur obs = some (-EINVAL, none)
    ∧ (t.joined = true → thread_join (some t) cur obs
        = some (-EINVAL, some t))
    ∧ (t.joined = false → t.joiner.isSome = true →
        thread_join (some t) cur obs = some (-EBUSY, some t))
    ∧ (t.joined = false → t.joiner = none →
        thread_join (some t) cur obs = some (r, t') →
        r = 0 ∧ ∃ u, t' = some u ∧ u.joined = true
          ∧ (t.completed = true ∨ obs.contains true = true)) := by
  refine ⟨rfl, ?_, ?_, ?_⟩
  · intro hj
    simp [thread_join, hj]
  · intro hj hw
    simp [thread_join, hj, hw]
  · intro hj hw hjoin
    simp only [thread_join] at hjoin
    rw [hj, hw] at hjoin
    simp only [Bool.false_eq_true, if_false, Option.isSome_none] at hjoin
    by_cases hcp : t.completed = true
    · rw [if_pos hcp] at hjoin
      simp only [Option.some.injEq, Prod.mk.injEq] at hjoin
      obtain ⟨hr, ht⟩ := hjoin
      exact ⟨hr.symm, ⟨_, ht.symm, rfl, Or.inl hcp⟩⟩
    · simp only [Bool.not_eq_true] at hcp
      rw [hcp] at hjoin
      simp only [Bool.false_eq_true, if_false] at hjoin
      by_cases hob : obs.contains true = true
      · rw [if_pos hob] at hjoin
        simp only [Option.some.injEq, Prod.mk.injEq] at hjoin
        obtain ⟨hr, ht⟩ := hjoin
        refine ⟨hr.symm, ⟨_, ht.symm, rfl, Or.inr hob⟩⟩
      · rw [if_neg hob] at hjoin
        exact absurd hjoin (by simp)

/-- C3 witness: the theorem instantiated at an already-joined handle, a
busy handle and a completed handle. -/
theorem thread_join_error_paths_witness :
    thread_join
        (some { thread_new (some 3) (some 4) 0 (some 1) 16 with
                joined := true }) 2 []
      = some (-EINVAL,
          some { thread_new (some 3) (some 4) 0 (some 1) 16 with
                 joined := true })
    ∧ thread_join
        (some { thread_new (some 3) (some 4) 0 (some 1) 16 with
                joiner := some 9 }) 2 []
      = some (-EBUSY,
          some { thread_new (some 3) (some 4) 0 (some 1) 16 with
                 joiner := some 9 }) := by
  exact ⟨(thread_join_error_paths
      { thread_new (some 3) (some 4) 0 (some 1) 16 with joined := true }
      2 [] 0 none).2.1 rfl,
    (thread_join_error_paths
      { thread_new (some 3) (some 4) 0 (some 1) 16 with joiner := some 9 }
      2 [] 0 none).2.2.1 rfl rfl⟩

/-- C4 (counterexample): a lazily created handle and an explicitly created
handle for the same still-running native task are distinguishable by
`join`: the lazy handle was allocated with `completed = true` (NULL entry),
so joining it returns success immediately while the task is still running,
whereas joining the created handle blocks until the task completes (here:
an empty observation list, so the call has not returned). -/
theorem lazy_created_join_distinguishable_cex :
    thread_join (some lazyHandleExample) 2 []
      = some (0, some { lazyHandleExample with joined := true })
    ∧ thread_join (some createdHandleExample) 2 [] = none
    ∧ lazyHandleExample.handle = createdHandleExample.handle := by
  refine ⟨rfl, rfl, rfl⟩

/-- C4 (amended): for a still-running task the lazy handle and the created
handle agree on the introspection queries: `get_name` and `get_priority`
(both query the native task through the same stored task handle),
`get_process` (same stored association), and `get_info`'s state (both take
the live branch of the terminated test, so the state comes from the same
native query).  `join` (shown by the counterexample) and the declared
stack size (0 for the lazy handle) remain distinguishable. -/
theorem lazy_created_queries_agree (h e a ss : Nat) (p : Option Nat)
    (ns : NativeState) (cur : Nat) :
    thread_get_name (thread_new (some h) none 0 p 0) ns cur
      = thread_get_name
          { thread_new none (some e) a p ss with handle := some h } ns cur
    ∧ thread_get_priority (thread_new (some h) none 0 p 0) ns cur
      = thread_get_priority
          { thread_new none (some e) a p ss with handle := some h } ns cur
    ∧ thread_get_process (thread_new (some h) none 0 p 0)
      = thread_get_process
          { thread_new none (some e) a p ss with handle := some h }
    ∧ (thread_get_info (thread_new (some h) none 0 p 0) ns).state
      = mapTaskState (ns.taskState h)
    ∧ (thread_get_info
          { thread_new none (some e) a p ss with handle := some h }
          ns).state
      = mapTaskState (ns.taskState h) := by
  refine ⟨rfl, rfl, rfl, ?_, ?_⟩
  · simp [thread_get_info, thread_new]
  · simp [thread_get_info, thread_new]

/-- C5 (confirmed): `destroy(NULL)` is a no-op; destroy always frees the
handle structure; the native task is deleted exactly when the handle has
not completed, carries a non-NULL task handle and does not refer to the
calling context; TLS is neither read nor cleared once `completed` is true;
and a handle produced by the lazy `current()` path for the running context
is never deleted (it is born with `completed = true`), nor is any handle
whose task handle equals the calling context. -/
theorem thread_destroy_safety (t : DmosiThread) (cur : Nat) (tls : Bool)
    (p cp : Option Nat) :
    thread_destroy none cur tls = ⟨false, false, false, false⟩
    ∧ (thread_destroy (some t) cur tls).freed = true
    ∧ ((thread_destroy (some t) cur tls).deletedTask = true ↔
        (t.completed = false ∧ t.handle.isSome = true
          ∧ t.handle ≠ some cur))
    ∧ (t.completed = true →
        (thread_destroy (some t) cur tls).touchedTls = false
        ∧ (thread_destroy (some t) cur tls).clearedTls = false)
    ∧ (∀ u, thread_current (some cur) none p cp true = some u →
        (thread_destroy (some u) cur tls).deletedTask = false)
    ∧ (t.handle = some cur →
        (thread_destroy (some t) cur tls).deletedTask = false) := by
  refine ⟨rfl, rfl, ?_, ?_, ?_, ?_⟩
  · cases hcpl : t.completed <;> cases hhnd : t.handle <;>
      simp [thread_destroy, hcpl, hhnd]
  · intro hc
    simp [thread_destroy, hc]
  · intro u hu
    cases p with
    | none =>
      simp only [thread_current, if_true, Option.some.injEq] at hu
      subst hu
      simp [thread_destroy, thread_new]
    | some p0 =>
      simp only [thread_current, if_true, Option.some.injEq] at hu
      subst hu
      simp [thread_destroy, thread_new]
  · intro hh
    simp [thread_destroy, hh]

/-- C5 witness: the theorem instantiated at a completed handle referring to
a foreign task; both guard clauses are discharged there. -/
theorem thread_destroy_safety_witness :
    (thread_destroy
        (some { thread_new (some 3) (some 4) 0 (some 1) 16 with
                completed := true }) 2 true).touchedTls = false
    ∧ (thread_destroy
        (some { thread_new (some 3) (some 4) 0 (some 1) 16 with
                completed := true }) 2 true).clearedTls = false := by
  exact (thread_destroy_safety
      { thread_new (some 3) (some 4) 0 (some 1) 16 with completed := true }
      2 true none none).2.2.2.1 rfl

/-- C6 (counterexample): `create` does not reject an empty name.  With a
valid entry, a non-zero stack size and `name = ""` (the empty character
list), and with allocation and spawn succeeding, `_thread_create` returns a
non-NULL handle and spawns a native task: the validation only compares the
name against NULL (`name == NULL`), never against the empty string. -/
theorem create_empty_name_accepted_cex :
    (thread_create (some 1) 0 16 (some []) none (some 0) true true
        5).result.isSome = true
    ∧ (thread_create (some 1) 0 16 (some []) none (some 0) true true
        5).spawned = true := by
  refine ⟨rfl, rfl⟩

/-- C6 (amended): create returns a NULL handle and spawns nothing whenever
the entry is NULL, the stack size is 0 or the name is NULL (an empty
non-NULL name is accepted, as the counterexample shows); on allocation
failure and on spawn failure the result is NULL, and on every NULL result
the thread structure was freed iff it was allocated, so no half-created
handle is returned and nothing leaks; every returned handle has
`completed = false` and carries the spawned task handle. -/
theorem thread_create_validation_no_leak (entry : Option Nat)
    (a ss : Nat) (name : Option (List Char)) (process cp : Option Nat)
    (allocOk spawnOk : Bool) (nh : Nat) :
    (entry = none ∨ ss = 0 ∨ name = none →
      thread_create entry a ss name process cp allocOk spawnOk nh
        = ⟨none, false, false, false⟩)
    ∧ (allocOk = false →
        (thread_create entry a ss name process cp allocOk spawnOk
          nh).result = none
        ∧ (thread_create entry a ss name process cp allocOk spawnOk
          nh).spawned = false)
    ∧ (spawnOk = false →
        (thread_create entry a ss name process cp allocOk spawnOk
          nh).result = none)
    ∧ ((thread_create entry a ss name process cp allocOk spawnOk
          nh).result = none →
        (thread_create entry a ss name process cp allocOk spawnOk
          nh).allocatedThread
          = (thread_create entry a ss name process cp allocOk spawnOk
          nh).freedThread)
    ∧ (∀ u, (thread_create entry a ss name process cp allocOk spawnOk
          nh).result = some u →
        u.completed = false ∧ u.handle = some nh) := by
  by_cases hv : entry = none ∨ ss = 0 ∨ name = none
  · refine ⟨fun _ => by simp [thread_create, hv], ?_, ?_, ?_, ?_⟩
    · intro _
      simp [thread_create, hv]
    · intro _
      simp [thread_create, hv]
    · intro _
      simp [thread_create, hv]
    · intro u hu
      simp [thread_create, hv] at hu
  · obtain ⟨e0, he⟩ : ∃ e0, entry = some e0 := by
      cases entry with
      | none => exact absurd (Or.inl rfl) hv
      | some e0 => exact ⟨e0, rfl⟩
    refine ⟨fun hc => absurd hc hv, ?_, ?_, ?_, ?_⟩
    · intro ha
      subst ha
      simp [thread_create, hv]
    · intro hs
      subst hs
      cases allocOk <;> simp [thread_create, hv]
    · intro hres
      cases allocOk with
      | false => simp [thread_create, hv]
      | true =>
        cases spawnOk with
        | false => simp [thread_create, hv]
        | true => simp [thread_create, hv] at hres
    · intro u hu
      cases allocOk with
      | false => simp [thread_create, hv] at hu
      | true =>
        cases spawnOk with
        | false => simp [thread_create, hv] at hu
        | true =>
          simp only [thread_create, if_neg hv, if_true,
            Option.some.injEq] at hu
          subst hu
          simp [thread_new, he]

/-- C6 witness: the amended theorem instantiated at a NULL entry and at a
spawn failure. -/
theorem thread_create_validation_no_leak_witness :
    thread_create none 0 16 (some []) none (some 0) true true 5
      = ⟨none, false, false, false⟩
    ∧ (thread_create (some 1) 0 16 (some []) none (some 0) true false
        5).result = none := by
  exact ⟨(thread_create_validation_no_leak none 0 16 (some []) none
      (some 0) true true 5).1 (Or.inl rfl),
    (thread_create_validation_no_leak (some 1) 0 16 (some []) none
      (some 0) true false 5).2.2.1 rfl⟩

/-- C7 (confirmed, assuming the snapshot buffer allocation succeeds — the
failure case is claim C10): with T live registered threads matching the
filter, a NULL output array yields the full count T; a non-NULL array of
capacity `max_count` yields exactly `min T max_count`, and the handles
written are the first `min T max_count` matches — pairwise distinct
whenever the registered thread identities are distinct (each structure is
bound in exactly one task's TLS slot).  `get_all` and `get_by_process` are
the filterless and filtered instances of the same enumeration. -/
theorem thread_enumerate_count_spec (pf : Option Nat) (pp : Nat)
    (mc : Nat) (wa : Bool)
    (snap : List (Option (Nat × DmosiThread))) :
    (thread_enumerate pf false mc true snap).1
      = (enumMatches pf snap).length
    ∧ (thread_enumerate pf true mc true snap).1
      = min (enumMatches pf snap).length mc
    ∧ (thread_enumerate pf true mc true snap).2
      = (enumMatches pf snap).take mc
    ∧ (thread_enumerate pf true mc true snap).2.length
      = min (enumMatches pf snap).length mc
    ∧ ((enumMatches pf snap).Nodup →
        (thread_enumerate pf true mc true snap).2.Nodup)
    ∧ thread_get_all wa mc true snap = thread_enumerate none wa mc true snap
    ∧ thread_get_by_process pp wa mc true snap
      = thread_enumerate (some pp) wa mc true snap := by
  have hcount := enumLoop_count_eq pf true mc snap 0 []
  have hwr := enumLoop_written_array pf mc snap 0 []
  have hcount0 := enumLoop_count_eq pf false mc snap 0 []
  refine ⟨?_, ?_, ?_, ?_, ?_, rfl, rfl⟩
  · simp [thread_enumerate, hcount0]
  · simp only [thread_enumerate, if_true, hcount, Nat.zero_add,
      Bool.true_and]
    by_cases hlt : mc < (enumMatches pf snap).length
    · simp [hlt]
      omega
    · simp [hlt]
      omega
  · simp [thread_enumerate, hwr]
  · simp [thread_enumerate, hwr, List.length_take]
    omega
  · intro hnd
    simp only [thread_enumerate, if_true, hwr, List.nil_append,
      Nat.sub_zero]
    exact hnd.sublist (List.take_sublist mc (enumMatches pf snap))

/-- C7 witness: the theorem instantiated at the one-thread snapshot with
capacity 1; the distinctness clause is discharged with the singleton
match list. -/
theorem thread_enumerate_count_spec_witness :
    (thread_enumerate none false 0 true exampleSnapshot).1
      = (enumMatches none exampleSnapshot).length
    ∧ (thread_enumerate none true 1 true exampleSnapshot).2.Nodup := by
  exact ⟨(thread_enumerate_count_spec none 1 0 false exampleSnapshot).1,
    (thread_enumerate_count_spec none 1 1 false
        exampleSnapshot).2.2.2.2.1 (by decide)⟩

/-- C8 (counterexample): the semaphore wait does not round a positive
millisecond timeout up to one tick.  With `configTICK_RATE_HZ = 100` a
5 ms timeout converts to 0 ticks (`5 * 100 / 1000 = 0`), and the failed
wait returns `-EAGAIN` (WouldBlock), not `-ETIMEDOUT`, contradicting both
the round-up part of the claim and "an expired positive timeout returns
TimedOut, never WouldBlock". -/
theorem positive_timeout_collapses_cex :
    (0 : Int) < 5
    ∧ pdMS_TO_TICKS 5 100 = 0
    ∧ semaphore_wait false 5 100 false = -EAGAIN
    ∧ decide (semaphore_wait false 5 100 false = -ETIMEDOUT) = false
    ∧ queue_receive false false 5 100 false = -EAGAIN := by
  refine ⟨by decide, rfl, rfl, by decide, rfl⟩

/-- C8 (amended): the timeout convention as implemented.  Timeout 0 is a
non-blocking attempt that fails with `-EAGAIN` (WouldBlock); a negative
timeout converts to `portMAX_DELAY` (wait indefinitely); a positive
timeout converts with truncating `pdMS_TO_TICKS` and no round-up: only
`_thread_sleep` rounds a non-zero delay up to one tick.  A failed
semaphore/queue wait reports `-ETIMEDOUT` only when the converted tick
budget was non-zero, and `-EAGAIN` when a positive timeout collapsed to
zero ticks; `_process_wait` distinguishes by the millisecond argument
instead and reports `-ETIMEDOUT` for every expired positive timeout. -/
theorem timeout_convention_amended (r : Nat) (tms : Int)
    (p : DmodProcess) (cur : Nat) (ms : Nat) :
    semaphore_wait false 0 r false = -EAGAIN
    ∧ queue_send false false 0 r false = -EAGAIN
    ∧ queue_receive false false 0 r false = -EAGAIN
    ∧ (tms < 0 → timeoutToTicks tms r = Ticks.maxDelay)
    ∧ (0 < tms → timeoutToTicks tms r ≠ Ticks.finite 0 →
        semaphore_wait false tms r false = -ETIMEDOUT
        ∧ queue_send false false tms r false = -ETIMEDOUT
        ∧ queue_receive false false tms r false = -ETIMEDOUT)
    ∧ (0 < tms → timeoutToTicks tms r = Ticks.finite 0 →
        semaphore_wait false tms r false = -EAGAIN)
    ∧ (0 < ms → 0 < thread_sleep_ticks ms r)
    ∧ (0 < tms → p.state = ProcessState.running → p.waiter = none →
        (process_wait (some p) cur tms false).1 = -ETIMEDOUT) := by
  refine ⟨?_, ?_, ?_, ?_, ?_, ?_, ?_, ?_⟩
  · simp [semaphore_wait, timeoutToTicks]
  · simp [queue_send, timeoutToTicks]
  · simp [queue_receive, timeoutToTicks]
  · intro hneg
    simp [timeoutToTicks, hneg]
  · intro hpos hnz
    refine ⟨?_, ?_, ?_⟩ <;>
      simp [semaphore_wait, queue_send, queue_receive, hnz]
  · intro hpos hz
    simp [semaphore_wait, hz]
  · intro hms
    simp only [thread_sleep_ticks]
    by_cases hz : pdMS_TO_TICKS ms r = 0
    · simp [hms, hz]
    · simp [hms, hz]
      omega
  · intro hpos hst hw
    have h1 : ¬ (p.state = ProcessState.terminated
        ∨ p.state = ProcessState.zombie) := by
      rw [hst]
      rintro (hc | hc) <;> exact ProcessState.noConfusion hc
    have h2 : p.waiter.isSome = false := by
      rw [hw]
      rfl
    have h3 : ¬ tms = 0 := by omega
    simp [process_wait, h1, h2, h3]

/-- C8 witness: the amended theorem instantiated at tick rate 1000 and a
50 ms timeout (which converts to 50 ticks), plus the process-wait clause
at a RUNNING process. -/
theorem timeout_convention_amended_witness :
    semaphore_wait false 50 1000 false = -ETIMEDOUT
    ∧ (process_wait (some runningProcessExample) 2 50 false).1
      = -ETIMEDOUT := by
  exact ⟨((timeout_convention_amended 1000 50 runningProcessExample 2
      1).2.2.2.2.1 (by decide) (by decide)).1,
    (timeout_convention_amended 1000 50 runningProcessExample 2
      1).2.2.2.2.2.2.2 (by decide) rfl rfl⟩

/-- C9 (confirmed): `_thread_kill` contains `(void)status;` — the status
argument does not influence the return value, the updated thread state,
the notification, the task deletions or the action trace, so
`kill(handle, s1)` and `kill(handle, s2)` are observably identical for all
handles (including NULL) and all pairs of status values, and no API
operation can retrieve the status (nothing ever stores it). -/
theorem thread_kill_status_noninterference (topt : Option DmosiThread)
    (cur : Nat) (s1 s2 : Int) :
    thread_kill topt cur s1 = thread_kill topt cur s2 := by
  cases topt <;> rfl

/-- C10 (confirmed): when the snapshot-buffer allocation inside
`thread_enumerate` fails, `get_all` and `get_by_process` return 0 even
though a live registered thread exists in the snapshot (with allocation
succeeding the same state reports count 1), so a returned count of 0 does
not imply that no threads are registered. -/
theorem enumerate_alloc_failure_returns_zero :
    thread_get_all false 0 false exampleSnapshot = (0, [])
    ∧ thread_get_by_process 1 false 0 false exampleSnapshot = (0, [])
    ∧ (enumMatches none exampleSnapshot).length = 1
    ∧ (thread_get_all false 0 true exampleSnapshot).1 = 1 := by
  refine ⟨rfl, rfl, rfl, rfl⟩
